import Mathlib

/-!
A shallow embedding of `src/executer/src/main.rs` from the libwasm
repository: the process-wide instance cache (`LIBRARIES`), the on-demand
loader (`resolve_import`), the combined import resolver
(`CombindedResolver::resolve`), the ABI classification performed by
`main` and by `resolve_import`, and the argument marshalling of the bare
ABI branch of `main`.

Modelling conventions:
* instance identity (the `Arc<Instance>` pointer) is modelled by a
  natural-number id handed out by a monotone counter `fresh`;
* the global `LIBRARIES : RwLock<HashMap<String, Arc<Instance>>>` is an
  association list threaded through the functions (its lock structure is
  modelled separately for the concurrency claim);
* panics (`unwrap`, `panic!`) are modelled by an explicit `panic` result
  constructor, since the source aborts the process instead of returning
  typed errors;
* `resolve_import` recursively instantiates freshly loaded modules
  (`Instance::new` drives `CombindedResolver::resolve` for each declared
  dependency of the new module), so the embedding is fuel-bounded; fuel
  exhaustion is modelled as a panic (the real program would recurse
  without bound on such inputs).
-/

namespace Libwasm

/-- Static metadata of a compiled wasm module (`wasmer::Module`): its
optional name, its declared (module, field) pairs of required symbols,
and its declared export names. -/
structure WModule where
  modName : Option String
  imports : List (String × String)
  exports : List String
deriving DecidableEq

/-- A live instance (`Arc<Instance>`): `id` models the `Arc` pointer
identity, `exports` the export names reachable through
`instance.exports`. -/
structure WInstance where
  id : Nat
  exports : List String
deriving DecidableEq

/-- A `wasmer::Export` as handed back to the engine by the resolver:
either an export of a live instance (via `get_extern(..).to_export()`)
or a synthetic export of an ABI import object. -/
inductive WExport where
  | fromInstance (id : Nat) (field : String)
  | fromEnv (ns field : String)
deriving DecidableEq

/-- An entry of the current working directory as seen by
`std::fs::read_dir`: whether the path is a regular file, its file name,
and the module the engine compiles from it (`none` models a file that
`Module::from_file` rejects, which the source `unwrap`s). -/
structure DirEntry where
  isFile : Bool
  entryName : String
  content : Option WModule
deriving DecidableEq

/-- The instance cache `LIBRARIES`, a map from module name to instance,
modelled as an association list. -/
abbrev Cache := List (String × WInstance)

/-- `HashMap::get` on the cache. -/
def cacheLookup : Cache → String → Option WInstance
  | [], _ => none
  | (n, i) :: rest, key => if n = key then some i else cacheLookup rest key

/-- `HashMap::insert` on the cache: replaces the binding of an existing
key, otherwise adds a new binding. -/
def cacheInsert : Cache → String → WInstance → Cache
  | [], key, inst => [(key, inst)]
  | (n, i) :: rest, key, inst =>
    if n = key then (key, inst) :: rest else (n, i) :: cacheInsert rest key inst

/-- Membership test on an export name list (used by the model of
`instance.exports.get_extern`). -/
def hasField : List String → String → Bool
  | [], _ => false
  | x :: rest, f => x == f || hasField rest f

/-- `instance.exports.get_extern(field)` followed by `to_export()`. -/
def getExport (inst : WInstance) (field : String) : Option WExport :=
  if hasField inst.exports field then some (WExport.fromInstance inst.id field) else none

/-- An ABI import object (`wasmer::ImportObject`): a synthetic export
for each (namespace, field) pair it covers. -/
abbrev EnvObj := String → String → Option WExport

/-- Modelled from the spec: the wasi import object produced by
`WasiState::new(..).finalize().import_object(module)` satisfies imports
drawn from the system-ABI namespaces. -/
def wasiImportObject : EnvObj := fun ns field =>
  if ns == "wasi_unstable" || ns == "wasi_snapshot_preview1" then
    some (WExport.fromEnv ns field)
  else none

/-- Modelled from the spec: the emscripten import object produced by
`generate_emscripten_env` satisfies imports drawn from the
legacy-runtime namespace. -/
def emscriptenImportObject : EnvObj := fun ns field =>
  if ns == "env" then some (WExport.fromEnv ns field) else none

/-- `ImportObject::resolve` through the resolver's optional `env` field
(the unused `index` argument of `Resolver::resolve` is dropped). -/
def envResolve : Option EnvObj → String → String → Option WExport
  | none, _, _ => none
  | some e, m, f => e m f

/-- The `for (name, instance) in &self.modules` loop of
`CombindedResolver::resolve`: the scan continues past an entry with the
right name whose instance lacks the field. -/
def siblingLookup : List (String × WInstance) → String → String → Option WExport
  | [], _, _ => none
  | (n, inst) :: rest, m, f =>
    if m = n then
      match getExport inst f with
      | some e => some e
      | none => siblingLookup rest m f
    else siblingLookup rest m f

/-- Modelled from the spec: `wasmer_wasi::is_wasi_module`, the engine's
detector for the system-call ABI, detects the presence of an import from
a system-ABI namespace. -/
def is_wasi_module (m : WModule) : Bool :=
  m.imports.any fun p => p.1 == "wasi_unstable" || p.1 == "wasi_snapshot_preview1"

/-- Modelled from the spec: `wasmer_emscripten::is_emscripten_module`,
the engine's detector for the legacy-runtime ABI, detects the presence
of an import from the legacy-runtime namespace. -/
def is_emscripten_module (m : WModule) : Bool :=
  m.imports.any fun p => p.1 == "env"

/-- The ABI category a module ends up in. The source has exactly these
three outcomes; there is no error outcome. -/
inductive AbiKind where
  | systemAbi
  | legacyRuntimeAbi
  | bare
deriving DecidableEq

/-- The classification decision made (identically) by `main` lines
148-167 and by `resolve_import` lines 214-233: wasi is tested first,
emscripten second, everything else is bare. -/
def classify (m : WModule) : AbiKind :=
  if is_wasi_module m then AbiKind.systemAbi
  else if is_emscripten_module m then AbiKind.legacyRuntimeAbi
  else AbiKind.bare

/-- The environment attached to the fresh `CombindedResolver` that
`resolve_import` builds for a newly loaded module, following the same
wasi / emscripten / bare dispatch as `main` (`enable_wasi` and
`enable_emscripten` set `self.env`; the bare branch leaves it `none`). -/
def libEnv (m : WModule) : Option EnvObj :=
  if is_wasi_module m then some wasiImportObject
  else if is_emscripten_module m then some emscriptenImportObject
  else none

/-- `path.is_file() && path.file_name().unwrap() == name`: the
`read_dir` loop of `resolve_import`, returning the first matching entry
in directory iteration order. -/
def findLib : List DirEntry → String → Option DirEntry
  | [], _ => none
  | e :: rest, nm => if e.isFile && e.entryName == nm then some e else findLib rest nm

/-- Result of `resolve_import` (and of the modelled `Instance::new`):
the instance together with the updated cache and id counter, or a
process panic. -/
inductive LoadRes where
  | ok (inst : WInstance) (cache : Cache) (fresh : Nat)
  | panic (msg : String)
deriving DecidableEq

/-- Result of `CombindedResolver::resolve`: the optional export, the
resolver's sibling list after the call (the source mutates `self.modules`
through a raw pointer), the updated cache and id counter, and how many
times `resolve_import` was invoked during the call (0 or 1), or a
process panic. -/
inductive ResolveRes where
  | ok (res : Option WExport) (siblings : List (String × WInstance))
      (cache : Cache) (fresh : Nat) (loaderCalls : Nat)
  | panic (msg : String)
deriving DecidableEq

/-- Result of driving the resolver over a module's declared import list. -/
inductive LinkRes where
  | ok (siblings : List (String × WInstance)) (cache : Cache) (fresh : Nat)
  | panic (msg : String)
deriving DecidableEq

mutual

/-- `CombindedResolver::resolve` (src lines 294-333): try the attached
environment, then the sibling list, then `resolve_import`; on a dynamic
hit append the freshly resolved module to the sibling list; when the
dynamically loaded instance lacks the field, return `none` (the cache
mutation performed inside `resolve_import` persists). -/
def resolveFn (fuel : Nat) (cwd : List DirEntry) (env : Option EnvObj)
    (siblings : List (String × WInstance)) (cache : Cache) (fresh : Nat)
    (module field : String) : ResolveRes :=
  match envResolve env module field with
  | some v => ResolveRes.ok (some v) siblings cache fresh 0
  | none =>
    match siblingLookup siblings module field with
    | some v => ResolveRes.ok (some v) siblings cache fresh 0
    | none =>
      match resolve_importFn fuel cwd module cache fresh with
      | LoadRes.panic msg => ResolveRes.panic msg
      | LoadRes.ok inst cache' fresh' =>
        match getExport inst field with
        | some e => ResolveRes.ok (some e) (siblings ++ [(module, inst)]) cache' fresh' 1
        | none => ResolveRes.ok none siblings cache' fresh' 1
termination_by (fuel, 1, 0)

/-- `resolve_import` (src lines 180-250): consult the cache; on a miss
scan the current working directory (the configured `-ld` search paths
are never consulted), compile the first matching regular file, build the
ABI environment, instantiate the module with a fresh resolver, insert
the instance into the cache, and return it. Every failure is a panic in
the source (`panic!` for a missing module, `unwrap` for a compile or
instantiation failure). -/
def resolve_importFn (fuel : Nat) (cwd : List DirEntry) (nm : String)
    (cache : Cache) (fresh : Nat) : LoadRes :=
  match cacheLookup cache nm with
  | some inst => LoadRes.ok inst cache fresh
  | none =>
    match findLib cwd nm with
    | none => LoadRes.panic ("unable to resolve symbol " ++ nm)
    | some entry =>
      match entry.content with
      | none => LoadRes.panic ("compile error")
      | some m =>
        match fuel with
        | 0 => LoadRes.panic ("recursion fuel exhausted")
        | Nat.succ fuel' =>
          match instantiateFn fuel' cwd (libEnv m) m cache fresh with
          | LoadRes.panic msg => LoadRes.panic msg
          | LoadRes.ok inst cache' fresh' =>
            LoadRes.ok inst (cacheInsert cache' nm inst) fresh'
termination_by (fuel, 0, 0)

/-- `Instance::new(&module, &resolver)` as driven by the engine: resolve
every declared import in order, then create the live instance exposing
the module's exports; an unresolved import is an instantiation error,
which every caller in the source `unwrap`s into a panic. -/
def instantiateFn (fuel : Nat) (cwd : List DirEntry) (env : Option EnvObj)
    (m : WModule) (cache : Cache) (fresh : Nat) : LoadRes :=
  match linkImports fuel cwd env [] cache fresh m.imports with
  | LinkRes.panic msg => LoadRes.panic msg
  | LinkRes.ok _ cache' fresh' => LoadRes.ok ⟨fresh', m.exports⟩ cache' (fresh' + 1)
termination_by (fuel, 3, 0)

/-- The engine's walk over a module's declared import list, invoking
`CombindedResolver::resolve` once per import in declaration order. -/
def linkImports (fuel : Nat) (cwd : List DirEntry) (env : Option EnvObj)
    (siblings : List (String × WInstance)) (cache : Cache) (fresh : Nat) :
    List (String × String) → LinkRes
  | [] => LinkRes.ok siblings cache fresh
  | (mn, fn) :: rest =>
    match resolveFn fuel cwd env siblings cache fresh mn fn with
    | ResolveRes.panic msg => LinkRes.panic msg
    | ResolveRes.ok none _ _ _ _ => LinkRes.panic ("unresolved " ++ mn ++ "." ++ fn)
    | ResolveRes.ok (some _) siblings' cache' fresh' _ =>
      linkImports fuel cwd env siblings' cache' fresh' rest
termination_by l => (fuel, 2, l.length)

end

/-- The link-and-instantiate step of `main` (lines 144-177) for the
top-level module: the cache starts empty, the environment follows the
same ABI dispatch, and the resulting instance is never inserted into the
cache (only `resolve_import` inserts). -/
def runTop (fuel : Nat) (cwd : List DirEntry) (m : WModule) : LoadRes :=
  instantiateFn fuel cwd (libEnv m) m [] 0

/-- The filesystem surroundings of one run: the directories pushed onto
the global `SEARCH_PATHS` by the `-ld` flag, and the current working
directory. -/
structure FsEnv where
  searchPaths : List (List DirEntry)
  cwd : List DirEntry

/-- The on-demand loader seen together with the full configured
environment: the source's `resolve_import` reads only
`std::env::current_dir()`; the global `SEARCH_PATHS` filled by `-ld` is
never consulted anywhere after being filled. -/
def resolve_import_env (fuel : Nat) (fs : FsEnv) (nm : String)
    (cache : Cache) (fresh : Nat) : LoadRes :=
  resolve_importFn fuel fs.cwd nm cache fresh

/-- Modelled from the spec: the locator the spec describes, searching an
ordered directory list (first match in directory order, then in entry
order within a directory) for a regular file named exactly `nm`. -/
def locate_spec : List (List DirEntry) → String → Option DirEntry
  | [], _ => none
  | d :: rest, nm =>
    match findLib d nm with
    | some e => some e
    | none => locate_spec rest nm

/-- The search order the claim asserts: the configured `-ld` directories
followed by the current working directory. -/
def spec_search_order (fs : FsEnv) : List (List DirEntry) :=
  fs.searchPaths ++ [fs.cwd]

/-- Provenance of the `argv` value passed to a bare module's entry
point: a host-process memory address reinterpreted as an integer, or an
offset into the instance's own linear memory. -/
inductive ArgvValue where
  | hostAddress (addr : Nat)
  | guestOffset (off : Nat)
deriving DecidableEq

/-- The bare branch of `main` (lines 167-177): it calls the export
`main` with `argc = args.len() as i32` and
`argv = args.as_ptr() as i64`, i.e. the host address of the argument
vector, with no copy into the instance's linear memory. `argsHostAddr`
stands for the numeric value of `args.as_ptr()`. -/
def bareEntryCallArgs (args : List String) (argsHostAddr : Nat) : Int × ArgvValue :=
  (Int.ofNat args.length, ArgvValue.hostAddress argsHostAddr)

/-- Mode in which the `LIBRARIES` RwLock is held. -/
inductive LockMode where
  | read
  | write
deriving DecidableEq

/-- The successive steps of the cache-miss path of `resolve_import`. -/
inductive LoadStep where
  | cacheLookupStep
  | locateStep
  | compileStep
  | instantiateStep
  | cacheInsertStep
deriving DecidableEq

/-- Which `LIBRARIES` lock is held during each step of the miss path,
transcribed from the source: the read guard `lib` is acquired at line
186 and dropped only at line 240, after `Module::from_file` (compile)
and `Instance::new` (instantiate); the write guard is taken at line 241
for the insert. -/
def lockHeldAt : LoadStep → Option LockMode
  | LoadStep.cacheInsertStep => some LockMode.write
  | _ => some LockMode.read

/-- `std::sync::RwLock` admission: may a new acquisition in the second
mode proceed while the first mode is held by another thread. -/
def rwlockAllows : LockMode → LockMode → Bool
  | LockMode.read, LockMode.read => true
  | _, _ => false

/-- Existing cache bindings survive to the final cache. -/
def CachePres (c c' : Cache) : Prop :=
  ∀ n i, cacheLookup c n = some i → cacheLookup c' n = some i

/-- Every instance stored in the cache has an id below the counter. -/
def CacheBelow (c : Cache) (k : Nat) : Prop :=
  ∀ p ∈ c, p.2.id < k

/-- Invariant bundle for `resolve_importFn` at a given fuel. -/
def RIP (fuel : Nat) : Prop :=
  ∀ cwd nm cache fresh inst cache' fresh',
    resolve_importFn fuel cwd nm cache fresh = LoadRes.ok inst cache' fresh' →
    CachePres cache cache' ∧ fresh ≤ fresh' ∧
      (CacheBelow cache fresh → CacheBelow cache' fresh' ∧ inst.id < fresh')

/-- Invariant bundle for `resolveFn` at a given fuel. -/
def RFP (fuel : Nat) : Prop :=
  ∀ cwd env sib cache fresh m f out sib' cache' fresh' lc,
    resolveFn fuel cwd env sib cache fresh m f = ResolveRes.ok out sib' cache' fresh' lc →
    CachePres cache cache' ∧ fresh ≤ fresh' ∧
      (CacheBelow cache fresh → CacheBelow cache' fresh')

/-- Invariant bundle for `linkImports` at a given fuel. -/
def LIP (fuel : Nat) : Prop :=
  ∀ cwd env imports sib cache fresh sib' cache' fresh',
    linkImports fuel cwd env sib cache fresh imports = LinkRes.ok sib' cache' fresh' →
    CachePres cache cache' ∧ fresh ≤ fresh' ∧
      (CacheBelow cache fresh → CacheBelow cache' fresh')

/-- Invariant bundle for `instantiateFn` at a given fuel. -/
def IFP (fuel : Nat) : Prop :=
  ∀ cwd env m cache fresh inst cache' fresh',
    instantiateFn fuel cwd env m cache fresh = LoadRes.ok inst cache' fresh' →
    CachePres cache cache' ∧ fresh ≤ fresh' ∧
      (CacheBelow cache fresh → CacheBelow cache' inst.id ∧ inst.id < fresh')

/-- A library module exporting `add` and `sub`, used as concrete input. -/
def addSubModule : WModule := ⟨some ("mathlib"), [], ["add", "sub"]⟩

/-- A directory entry holding `addSubModule` under the name `mathlib`. -/
def addSubEntry : DirEntry := ⟨true, "mathlib", some addSubModule⟩

/-- A working directory containing exactly the `mathlib` file. -/
def demoCwd : List DirEntry := [addSubEntry]

/-- The instance the loader builds from `addSubModule` first. -/
def addSubInst : WInstance := ⟨0, ["add", "sub"]⟩

/-- The cache after `mathlib` has been loaded once into an empty cache. -/
def demoCache : Cache := [(("mathlib"), addSubInst)]

/-- A top-level module importing `add` from `mathlib`. -/
def appModule : WModule := ⟨some ("app"), [("mathlib", "add")], ["run"]⟩

/-- A module whose imports mix the system-ABI namespace with the
legacy-runtime namespace. -/
def mixedModule : WModule :=
  ⟨some ("mixed"), [("wasi_snapshot_preview1", "fd_write"), ("env", "abort")], []⟩

/-- A module with imports drawn only from a system-ABI namespace. -/
def onlyWasiModule : WModule :=
  ⟨some ("w"), [("wasi_snapshot_preview1", "fd_write")], ["_start"]⟩

/-- A module with no imports at all. -/
def noImportModule : WModule := ⟨some ("b"), [], ["main"]⟩

/-- A directory entry for a module named `foo`. -/
def fooEntry : DirEntry := ⟨true, "foo", some ⟨some ("foo"), [], ["f"]⟩⟩

/-- A run whose configured `-ld` search path holds the only copy of
`foo`, while the current working directory is empty. -/
def cexFs : FsEnv := ⟨[[fooEntry]], []⟩

theorem cacheLookup_insert_self (c : Cache) (key : String) (inst : WInstance) :
    cacheLookup (cacheInsert c key inst) key = some inst := by
  induction c with
  | nil => simp [cacheInsert, cacheLookup]
  | cons p rest ih =>
    obtain ⟨n, i⟩ := p
    by_cases h : n = key
    · subst h; simp [cacheInsert, cacheLookup]
    · simp [cacheInsert, cacheLookup, h, ih]

theorem cacheLookup_insert_ne (c : Cache) (key n : String) (inst : WInstance)
    (h : n ≠ key) :
    cacheLookup (cacheInsert c key inst) n = cacheLookup c n := by
  have hk : key ≠ n := Ne.symm h
  induction c with
  | nil => simp only [cacheInsert, cacheLookup, if_neg hk]
  | cons p rest ih =>
    obtain ⟨n', i'⟩ := p
    by_cases h' : n' = key
    · subst h'
      simp only [cacheInsert, if_pos rfl, cacheLookup, if_neg hk]
    · simp only [cacheInsert, if_neg h', cacheLookup]
      by_cases h'' : n' = n
      · simp only [if_pos h'']
      · simp only [if_neg h'', ih]

theorem cacheLookup_mem (c : Cache) (n : String) (i : WInstance)
    (h : cacheLookup c n = some i) : (n, i) ∈ c := by
  induction c with
  | nil => simp [cacheLookup] at h
  | cons p rest ih =>
    obtain ⟨n', i'⟩ := p
    by_cases h' : n' = n
    · subst h'
      simp [cacheLookup] at h
      subst h
      exact List.mem_cons_self _ _
    · simp only [cacheLookup, if_neg h'] at h
      exact List.mem_cons_of_mem _ (ih h)

theorem mem_cacheInsert (c : Cache) (key : String) (inst : WInstance)
    (p : String × WInstance) (h : p ∈ cacheInsert c key inst) :
    p ∈ c ∨ p = (key, inst) := by
  induction c with
  | nil => simp [cacheInsert] at h; exact Or.inr h
  | cons q rest ih =>
    obtain ⟨n', i'⟩ := q
    by_cases h' : n' = key
    · subst h'
      simp only [cacheInsert, if_pos rfl] at h
      rcases List.mem_cons.mp h with h | h
      · exact Or.inr h
      · exact Or.inl (List.mem_cons_of_mem _ h)
    · simp only [cacheInsert, if_neg h'] at h
      rcases List.mem_cons.mp h with h | h
      · exact Or.inl (h ▸ List.mem_cons_self _ _)
      · rcases ih h with h | h
        · exact Or.inl (List.mem_cons_of_mem _ h)
        · exact Or.inr h

theorem siblingLookup_not_mem (sib : List (String × WInstance)) (m f : String)
    (h : ∀ i, (m, i) ∉ sib) : siblingLookup sib m f = none := by
  induction sib with
  | nil => rfl
  | cons p rest ih =>
    obtain ⟨n, inst⟩ := p
    have hm : m ≠ n := by
      intro he
      exact h inst (by rw [he]; exact List.mem_cons_self _ _)
    simp only [siblingLookup, if_neg hm]
    exact ih fun i hi => h i (List.mem_cons_of_mem _ hi)

theorem siblingLookup_append_self (sib : List (String × WInstance)) (m f : String)
    (inst : WInstance) (h : ∀ i, (m, i) ∉ sib) :
    siblingLookup (sib ++ [(m, inst)]) m f = getExport inst f := by
  induction sib with
  | nil =>
    simp only [List.nil_append, siblingLookup, if_pos rfl]
    cases getExport inst f <;> simp [siblingLookup]
  | cons p rest ih =>
    obtain ⟨n, i⟩ := p
    have hm : m ≠ n := by
      intro he
      exact h i (by rw [he]; exact List.mem_cons_self _ _)
    simp only [List.cons_append, siblingLookup, if_neg hm]
    exact ih fun i hi => h i (List.mem_cons_of_mem _ hi)

theorem ripStep (fuel : Nat) (hIF : ∀ g, g + 1 = fuel → IFP g) : RIP fuel := by
  intro cwd nm cache fresh inst cache' fresh' h
  unfold resolve_importFn at h
  split at h
  · rename_i inst0 heq
    cases h
    exact ⟨fun n i hi => hi, Nat.le_refl _, fun hb => ⟨hb, hb _ (cacheLookup_mem _ _ _ heq)⟩⟩
  · rename_i heq
    split at h
    · cases h
    · rename_i entry hfind
      split at h
      · cases h
      · rename_i m hm
        split at h
        · cases h
        · rename_i fuel'
          split at h
          · cases h
          · rename_i inst1 c1 f1 hinst
            obtain ⟨pres1, le1, below1⟩ := hIF fuel' rfl cwd (libEnv m) m cache fresh inst1 c1 f1 hinst
            cases h
            refine ⟨?_, le1, ?_⟩
            · intro n i hi
              have hne : n ≠ nm := by
                intro he
                subst he
                rw [hi] at heq
                cases heq
              rw [cacheLookup_insert_ne _ _ _ _ hne]
              exact pres1 n i hi
            · intro hb
              obtain ⟨hbel, hlt⟩ := below1 hb
              refine ⟨?_, hlt⟩
              intro p hp
              rcases mem_cacheInsert _ _ _ _ hp with hc | he
              · exact Nat.lt_trans (hbel p hc) hlt
              · rw [he]; exact hlt

theorem rfpStep (fuel : Nat) (hRI : RIP fuel) : RFP fuel := by
  intro cwd env sib cache fresh m f out sib' cache' fresh' lc h
  unfold resolveFn at h
  split at h
  · cases h
    exact ⟨fun n i hi => hi, Nat.le_refl _, fun hb => hb⟩
  · split at h
    · cases h
      exact ⟨fun n i hi => hi, Nat.le_refl _, fun hb => hb⟩
    · split at h
      · cases h
      · rename_i inst c1 f1 heqL
        obtain ⟨pres, le, below⟩ := hRI _ _ _ _ _ _ _ heqL
        split at h <;> cases h <;> exact ⟨pres, le, fun hb => (below hb).1⟩

theorem lipStep (fuel : Nat) (hRF : RFP fuel) : LIP fuel := by
  intro cwd env imports
  induction imports with
  | nil =>
    intro sib cache fresh sib' cache' fresh' h
    unfold linkImports at h
    cases h
    exact ⟨fun n i hi => hi, Nat.le_refl _, fun hb => hb⟩
  | cons p rest ih =>
    obtain ⟨mn, fn⟩ := p
    intro sib cache fresh sib' cache' fresh' h
    unfold linkImports at h
    split at h
    · cases h
    · cases h
    · rename_i e sib1 c1 f1 lc heqR
      obtain ⟨pres1, le1, below1⟩ := hRF _ _ _ _ _ _ _ _ _ _ _ _ heqR
      obtain ⟨pres2, le2, below2⟩ := ih _ _ _ _ _ _ h
      exact ⟨fun n i hi => pres2 _ _ (pres1 _ _ hi), Nat.le_trans le1 le2,
        fun hb => below2 (below1 hb)⟩

theorem ifpStep (fuel : Nat) (hLI : LIP fuel) : IFP fuel := by
  intro cwd env m cache fresh inst cache' fresh' h
  unfold instantiateFn at h
  split at h
  · cases h
  · rename_i sib1 c1 f1 heq
    cases h
    obtain ⟨pres, le, below⟩ := hLI _ _ _ _ _ _ _ _ _ heq
    exact ⟨pres, Nat.le_trans le (Nat.le_succ _), fun hb => ⟨below hb, Nat.lt_succ_self _⟩⟩

theorem loaderInv (fuel : Nat) : RIP fuel ∧ RFP fuel ∧ LIP fuel ∧ IFP fuel := by
  induction fuel with
  | zero =>
    have hri : RIP 0 := ripStep 0 (fun g hg => absurd hg (by omega))
    have hrf : RFP 0 := rfpStep 0 hri
    have hli : LIP 0 := lipStep 0 hrf
    exact ⟨hri, hrf, hli, ifpStep 0 hli⟩
  | succ g ih =>
    have hri : RIP (g + 1) := ripStep (g + 1) (fun g' hg => by
      have hgg : g' = g := by omega
      subst hgg
      exact ih.2.2.2)
    have hrf : RFP (g + 1) := rfpStep _ hri
    have hli : LIP (g + 1) := lipStep _ hrf
    exact ⟨hri, hrf, hli, ifpStep _ hli⟩

/-- Claim C1: `CombindedResolver::resolve` tries, in order and first
match winning, (1) the attached ABI environment, (2) the session sibling
list, (3) the on-demand loader, and returns the export from the first
source that provides it. -/
theorem resolver_tries_env_then_siblings_then_loader
    (fuel : Nat) (cwd : List DirEntry) (env : Option EnvObj)
    (sib : List (String × WInstance)) (cache : Cache) (fresh : Nat) (m f : String) :
    (∀ v, envResolve env m f = some v →
      resolveFn fuel cwd env sib cache fresh m f = ResolveRes.ok (some v) sib cache fresh 0)
    ∧ (envResolve env m f = none → ∀ v, siblingLookup sib m f = some v →
      resolveFn fuel cwd env sib cache fresh m f = ResolveRes.ok (some v) sib cache fresh 0)
    ∧ (envResolve env m f = none → siblingLookup sib m f = none →
      ∀ inst cache' fresh',
        resolve_importFn fuel cwd m cache fresh = LoadRes.ok inst cache' fresh' →
      ∀ e, getExport inst f = some e →
      resolveFn fuel cwd env sib cache fresh m f
        = ResolveRes.ok (some e) (sib ++ [(m, inst)]) cache' fresh' 1) := by
  refine ⟨?_, ?_, ?_⟩
  · intro v hv
    unfold resolveFn
    rw [hv]
  · intro h0 v hv
    unfold resolveFn
    rw [h0, hv]
  · intro h0 hs inst cache' fresh' hl e he
    unfold resolveFn
    simp only [h0, hs, hl, he]

/-- Witness for claim C1 at a concrete input: an environment hit wins
and the resolver state is untouched. -/
theorem resolver_order_witness :
    resolveFn 0 [] (some wasiImportObject) [] [] 0 ("wasi_snapshot_preview1") ("fd_write")
      = ResolveRes.ok (some (WExport.fromEnv ("wasi_snapshot_preview1") ("fd_write"))) [] [] 0 0 :=
  (resolver_tries_env_then_siblings_then_loader 0 [] (some wasiImportObject)
    [] [] 0 ("wasi_snapshot_preview1") ("fd_write")).1 _ (by decide)

/-- Claim C2 (code bug): a failed on-demand load does not return a typed
error value; the source panics the whole process, both when no matching
file exists (`panic!` at line 248) and when the engine rejects the
file's contents (`unwrap` at line 208). Evaluated at the failing
inputs. -/
theorem load_failure_panics_process :
    resolve_importFn 5 [] ("libfoo") [] 0
      = LoadRes.panic ("unable to resolve symbol " ++ "libfoo")
    ∧ resolve_importFn 5 [⟨true, "libbar", none⟩] ("libbar") [] 0
      = LoadRes.panic ("compile error") := by
  constructor
  · simp [resolve_importFn, cacheLookup, findLib]
  · simp [resolve_importFn, cacheLookup, findLib]

/-- Claim C3 counterexample: with configured search directory D1
containing `foo` and an empty working directory, the locator the claim
describes returns D1's `foo`, but the code panics with an unresolved
symbol: the configured `-ld` directories are never consulted. -/
theorem configured_dirs_ignored_cex :
    locate_spec (spec_search_order cexFs) ("foo") = some fooEntry
    ∧ resolve_import_env 5 cexFs ("foo") [] 0
      = LoadRes.panic ("unable to resolve symbol " ++ "foo") := by
  constructor
  · simp [locate_spec, spec_search_order, cexFs, fooEntry, findLib]
  · simp [resolve_import_env, resolve_importFn, cexFs, cacheLookup, findLib]

/-- Claim C3 amended: the loader ignores the configured `-ld`
directories entirely and scans only the current working directory
(first matching regular file in entry iteration order, which is what
`findLib` computes); when no entry of the working directory matches it
panics instead of yielding None. -/
theorem loader_scans_only_cwd (fuel : Nat) (sp sp2 : List (List DirEntry))
    (cwd : List DirEntry) (nm : String) (cache : Cache) (fresh : Nat)
    (hc : cacheLookup cache nm = none) :
    resolve_import_env fuel ⟨sp, cwd⟩ nm cache fresh
      = resolve_import_env fuel ⟨sp2, cwd⟩ nm cache fresh
    ∧ locate_spec [cwd] nm = findLib cwd nm
    ∧ (findLib cwd nm = none →
      resolve_import_env fuel ⟨sp, cwd⟩ nm cache fresh
        = LoadRes.panic ("unable to resolve symbol " ++ nm)) := by
  refine ⟨rfl, ?_, ?_⟩
  · rcases hf : findLib cwd nm with _ | e <;> simp [locate_spec, hf]
  · intro hfind
    unfold resolve_import_env resolve_importFn
    rw [hc, hfind]

/-- Witness for the amended claim C3 at a concrete input. -/
theorem loader_scans_only_cwd_witness :
    resolve_import_env 3 ⟨[[fooEntry]], []⟩ ("bar") [] 0
      = resolve_import_env 3 ⟨[], []⟩ ("bar") [] 0
    ∧ locate_spec [([] : List DirEntry)] ("bar") = findLib [] ("bar")
    ∧ resolve_import_env 3 ⟨[[fooEntry]], []⟩ ("bar") [] 0
      = LoadRes.panic ("unable to resolve symbol " ++ "bar") := by
  have h := loader_scans_only_cwd 3 [[fooEntry]] [] [] ("bar") [] 0 rfl
  exact ⟨h.1, h.2.1, h.2.2 rfl⟩

/-- Claim C4: bindings already present in the instance cache are never
replaced or removed by a load; after a successful load the name is bound
to the returned instance; and resolving the same name a second time
returns the identical instance handle with the cache unchanged. -/
theorem instance_cache_append_only_idempotent (fuel : Nat) (cwd : List DirEntry)
    (nm : String) (cache : Cache) (fresh : Nat) (inst : WInstance)
    (cache' : Cache) (fresh' : Nat)
    (h : resolve_importFn fuel cwd nm cache fresh = LoadRes.ok inst cache' fresh') :
    (∀ n i, cacheLookup cache n = some i → cacheLookup cache' n = some i)
    ∧ cacheLookup cache' nm = some inst
    ∧ ∀ fuel2, resolve_importFn fuel2 cwd nm cache' fresh' = LoadRes.ok inst cache' fresh' := by
  have hpres := ((loaderInv fuel).1 _ _ _ _ _ _ _ h).1
  have hbound : cacheLookup cache' nm = some inst := by
    unfold resolve_importFn at h
    split at h
    · rename_i inst0 heq
      cases h
      exact heq
    · split at h
      · cases h
      · split at h
        · cases h
        · split at h
          · cases h
          · split at h
            · cases h
            · rename_i inst1 c1 f1 hinst
              cases h
              exact cacheLookup_insert_self _ _ _
  refine ⟨hpres, hbound, fun fuel2 => ?_⟩
  unfold resolve_importFn
  rw [hbound]

/-- Witness for claim C4: after the first load of `mathlib`, a second
resolution (with no fuel at all) returns the identical handle and leaves
the cache unchanged. -/
theorem instance_cache_idempotent_witness :
    resolve_importFn 0 demoCwd ("mathlib") demoCache 1 = LoadRes.ok addSubInst demoCache 1 :=
  ((instance_cache_append_only_idempotent 1 demoCwd ("mathlib") [] 0 addSubInst demoCache 1
    (by simp [resolve_importFn, instantiateFn, linkImports, cacheLookup, findLib,
      libEnv, is_wasi_module, is_emscripten_module, demoCwd, addSubEntry,
      addSubModule, addSubInst, demoCache, cacheInsert])).2.2) 0

/-- Claim C5 counterexample: a module mixing system-ABI and
legacy-runtime imports is not rejected with a classification error (the
source's classification has no error outcome at all); it is assigned the
SystemAbi category, because the wasi detector is consulted first. -/
theorem mixed_abi_gets_category_cex : classify mixedModule = AbiKind.systemAbi := by
  decide

/-- Claim C5 amended: classification inspects only the declared import
namespaces and is deterministic; a module whose imports are drawn only
from the system-ABI namespaces classifies as SystemAbi, a module with no
imports classifies as Bare, and a module mixing system-ABI and
legacy-runtime imports also classifies as SystemAbi (the wasi test comes
first) rather than yielding an error. -/
theorem classify_wasi_checked_first (m : WModule) :
    (m.imports = [] → classify m = AbiKind.bare)
    ∧ ((∀ p ∈ m.imports, p.1 = "wasi_unstable" ∨ p.1 = "wasi_snapshot_preview1") →
      m.imports ≠ [] → classify m = AbiKind.systemAbi)
    ∧ (is_wasi_module m = true → classify m = AbiKind.systemAbi)
    ∧ classify mixedModule = AbiKind.systemAbi := by
  refine ⟨?_, ?_, ?_, by decide⟩
  · intro he
    simp [classify, is_wasi_module, is_emscripten_module, he]
  · intro hall hne
    have hw : is_wasi_module m = true := by
      unfold is_wasi_module
      rw [List.any_eq_true]
      obtain ⟨p, hp⟩ := List.exists_mem_of_ne_nil m.imports hne
      refine ⟨p, hp, ?_⟩
      rcases hall p hp with h | h <;> simp [h]
    simp [classify, hw]
  · intro hw
    simp [classify, hw]

/-- Witness for the amended claim C5 at concrete modules. -/
theorem classify_witness :
    classify noImportModule = AbiKind.bare ∧ classify onlyWasiModule = AbiKind.systemAbi :=
  ⟨(classify_wasi_checked_first noImportModule).1 rfl,
   (classify_wasi_checked_first onlyWasiModule).2.1 (by decide) (by decide)⟩

/-- Claim C6: within one session, two imports from the same module B
trigger the dynamic fallback exactly once: the first resolve invokes the
loader (`loaderCalls = 1`) and appends `(B, instance)` to the sibling
list; the second resolves from the sibling list without invoking the
loader (`loaderCalls = 0`), leaving all state unchanged. -/
theorem sibling_reuse_single_dynamic_load (fuel : Nat) (cwd : List DirEntry)
    (env : Option EnvObj) (sib : List (String × WInstance)) (cache : Cache)
    (fresh : Nat) (B f1 f2 : String) (inst : WInstance) (cache' : Cache) (fresh' : Nat)
    (h1 : envResolve env B f1 = none) (h2 : envResolve env B f2 = none)
    (hs : ∀ i, (B, i) ∉ sib)
    (hload : resolve_importFn fuel cwd B cache fresh = LoadRes.ok inst cache' fresh')
    (he1 : getExport inst f1 = some (WExport.fromInstance inst.id f1))
    (he2 : getExport inst f2 = some (WExport.fromInstance inst.id f2)) :
    resolveFn fuel cwd env sib cache fresh B f1
      = ResolveRes.ok (some (WExport.fromInstance inst.id f1)) (sib ++ [(B, inst)]) cache' fresh' 1
    ∧ resolveFn fuel cwd env (sib ++ [(B, inst)]) cache' fresh' B f2
      = ResolveRes.ok (some (WExport.fromInstance inst.id f2)) (sib ++ [(B, inst)]) cache' fresh' 0 := by
  constructor
  · unfold resolveFn
    simp only [h1, siblingLookup_not_mem sib B f1 hs, hload, he1]
  · unfold resolveFn
    simp only [h2, siblingLookup_append_self sib B f2 inst hs, he2]

/-- Witness for claim C6 at a concrete input: first import of `add`
loads `mathlib` dynamically, second import of `sub` hits the sibling
list. -/
theorem sibling_reuse_witness :
    resolveFn 1 demoCwd none [] [] 0 ("mathlib") ("add")
      = ResolveRes.ok (some (WExport.fromInstance 0 ("add")))
          [(("mathlib"), addSubInst)] demoCache 1 1
    ∧ resolveFn 1 demoCwd none [(("mathlib"), addSubInst)] demoCache 1 ("mathlib") ("sub")
      = ResolveRes.ok (some (WExport.fromInstance 0 ("sub")))
          [(("mathlib"), addSubInst)] demoCache 1 0 :=
  sibling_reuse_single_dynamic_load 1 demoCwd none [] [] 0 ("mathlib") ("add") ("sub")
    addSubInst demoCache 1 rfl rfl (fun i hi => by cases hi)
    (by simp [resolve_importFn, instantiateFn, linkImports, cacheLookup, findLib,
      libEnv, is_wasi_module, is_emscripten_module, demoCwd, addSubEntry,
      addSubModule, addSubInst, demoCache, cacheInsert])
    (by decide) (by decide)

/-- Claim C7 (code bug): the bare-ABI entry invocation passes the host
address of the argument vector reinterpreted as an i64; nothing is
copied into the instance's linear memory and no in-instance offset is
passed. -/
theorem bare_entry_receives_host_address :
    (bareEntryCallArgs [("hello")] 4096).2 = ArgvValue.hostAddress 4096
    ∧ ∀ off : Nat, (bareEntryCallArgs [("hello")] 4096).2 ≠ ArgvValue.guestOffset off := by
  refine ⟨rfl, ?_⟩
  intro off h
  cases h

/-- Claim C8 counterexample: a lock on the instance cache IS held across
the compile and instantiate steps — the read guard acquired at line 186
is dropped only at line 240, after both. -/
theorem lock_held_across_compile_cex :
    ¬ (lockHeldAt LoadStep.compileStep = none
      ∧ lockHeldAt LoadStep.instantiateStep = none) := by
  decide

/-- Claim C8 amended: the read lock (never the write lock) is held
across the compile and instantiate steps; because the RwLock admits
concurrent readers, unrelated cache lookups by other threads are indeed
not blocked, but cache inserts by other threads are. -/
theorem read_lock_held_across_compile_instantiate :
    lockHeldAt LoadStep.compileStep = some LockMode.read
    ∧ lockHeldAt LoadStep.instantiateStep = some LockMode.read
    ∧ rwlockAllows LockMode.read LockMode.read = true
    ∧ rwlockAllows LockMode.read LockMode.write = false := by
  decide

/-- Claim C9: only instances built by `resolve_import` are inserted into
the instance cache; the top-level instance built by `main` is never
stored under any name (every cached instance has a strictly smaller id,
so none of them is the top-level handle). -/
theorem top_instance_not_cached (fuel : Nat) (cwd : List DirEntry) (m : WModule)
    (top : WInstance) (cache' : Cache) (fresh' : Nat)
    (h : runTop fuel cwd m = LoadRes.ok top cache' fresh') :
    ∀ n i, cacheLookup cache' n = some i → i.id < top.id ∧ i ≠ top := by
  have hif := (loaderInv fuel).2.2.2
  unfold runTop at h
  obtain ⟨-, -, hb⟩ := hif _ _ _ _ _ _ _ _ h
  obtain ⟨hbel, -⟩ := hb (fun p hp => absurd hp (List.not_mem_nil p))
  intro n i hi
  have hlt := hbel _ (cacheLookup_mem _ _ _ hi)
  exact ⟨hlt, fun he => by rw [he] at hlt; exact Nat.lt_irrefl _ hlt⟩

/-- Witness for claim C9: running the demo app caches `mathlib`'s
instance, which differs from the top-level instance. -/
theorem top_instance_not_cached_witness :
    addSubInst.id < 1 ∧ addSubInst ≠ (⟨1, ["run"]⟩ : WInstance) :=
  top_instance_not_cached 1 demoCwd appModule ⟨1, ["run"]⟩ demoCache 2
    (by simp [runTop, instantiateFn, linkImports, resolveFn, resolve_importFn,
      envResolve, siblingLookup, getExport, hasField, cacheLookup, findLib,
      libEnv, is_wasi_module, is_emscripten_module, demoCwd, addSubEntry,
      addSubModule, addSubInst, demoCache, cacheInsert, appModule])
    ("mathlib") addSubInst (by simp [demoCache, addSubInst, cacheLookup])

/-- Claim C10: when the dynamic fallback locates, compiles and
instantiates a module whose exports lack the requested field, resolve
returns none, the freshly built instance has nevertheless been inserted
into the cache, and the sibling list is not appended. -/
theorem field_miss_caches_instance_no_sibling (fuel : Nat) (cwd : List DirEntry)
    (env : Option EnvObj) (sib : List (String × WInstance)) (cache : Cache)
    (fresh : Nat) (B f : String) (entry : DirEntry) (M : WModule)
    (inst : WInstance) (cache2 : Cache) (fresh2 : Nat)
    (h1 : envResolve env B f = none)
    (h2 : siblingLookup sib B f = none)
    (hc : cacheLookup cache B = none)
    (hfind : findLib cwd B = some entry)
    (hm : entry.content = some M)
    (hinst : instantiateFn fuel cwd (libEnv M) M cache fresh = LoadRes.ok inst cache2 fresh2)
    (hf : getExport inst f = none) :
    resolveFn (fuel + 1) cwd env sib cache fresh B f
      = ResolveRes.ok none sib (cacheInsert cache2 B inst) fresh2 1
    ∧ cacheLookup (cacheInsert cache2 B inst) B = some inst := by
  constructor
  · show resolveFn (Nat.succ fuel) cwd env sib cache fresh B f
      = ResolveRes.ok none sib (cacheInsert cache2 B inst) fresh2 1
    unfold resolveFn resolve_importFn
    simp only [h1, h2, hc, hfind, hm, hinst, hf]
  · exact cacheLookup_insert_self _ _ _

/-- Witness for claim C10 at a concrete input: requesting the missing
field `mul` from `mathlib` yields none while `mathlib` ends up cached
and the sibling list stays empty. -/
theorem field_miss_witness :
    resolveFn 1 demoCwd none [] [] 0 ("mathlib") ("mul")
      = ResolveRes.ok none [] demoCache 1 1
    ∧ cacheLookup demoCache ("mathlib") = some addSubInst :=
  field_miss_caches_instance_no_sibling 0 demoCwd none [] [] 0 ("mathlib") ("mul")
    addSubEntry addSubModule addSubInst [] 1 rfl rfl rfl (by decide) rfl
    (by simp [instantiateFn, linkImports, libEnv, is_wasi_module,
      is_emscripten_module, addSubModule, addSubInst])
    (by decide)

end Libwasm
